import Mathlib

/-!
Verification development for the lounge-listing scraper (`abc.py`).

The scraper extracts flat records from HTML "cards" using CSS-selector
lookups (BeautifulSoup), crawls numbered pages, and serializes cumulative
JSON snapshots.  This file gives a shallow embedding of that code:

* `Node` models a parsed DOM subtree (tag, class list, attributes, rendered
  text of the element, children).
* `Sel` models the small fragment of CSS used by the scraper: a tag name,
  a conjunction of class names, a comma union, and (separately) the single
  descendant combinator `h2 a`.  `select` / `select_one` search strict
  descendants in document (preorder) order, as BeautifulSoup does.
* Python string operations used by the code (`str.strip`, `str.split` on
  the literal separators `": "` and `"-"`, and `int`) are embedded as
  structurally recursive functions over `List Char` so that every
  definition evaluates inside the kernel.
-/

/-- Whitespace recognized by the embedded `str.strip`. -/
def isSpaceChar (c : Char) : Bool :=
  c = ' ' || c = '\t' || c = '\n' || c = '\r'

/-- Drop leading whitespace characters. -/
def dropLeadingSpace : List Char → List Char
  | [] => []
  | c :: rest => if isSpaceChar c then dropLeadingSpace rest else c :: rest

/-- Python `str.strip()`: remove whitespace from both ends. -/
def pyStrip (s : String) : String :=
  String.mk ((dropLeadingSpace ((dropLeadingSpace s.toList).reverse)).reverse)

/-- Python `str.split(': ')`, specialized to the two-character separator the
scraper uses for amenity labels: splits on each non-overlapping occurrence
of `': '`, scanning left to right. -/
def splitOnColonSpace : List Char → List (List Char)
  | [] => [[]]
  | [c] => [[c]]
  | c1 :: c2 :: rest =>
    if c1 = ':' && c2 = ' ' then
      [] :: splitOnColonSpace rest
    else
      match splitOnColonSpace (c2 :: rest) with
      | [] => [[c1]]
      | g :: gs => (c1 :: g) :: gs

/-- Python `str.split('-')`: split on every dash. -/
def splitOnDash : List Char → List (List Char)
  | [] => [[]]
  | c :: rest =>
    if c = '-' then
      [] :: splitOnDash rest
    else
      match splitOnDash rest with
      | [] => [[c]]
      | g :: gs => (c :: g) :: gs

/-- Python `cls.split('-')[-1]`: the part after the last dash (`split`
always returns a non-empty list, so the `[-1]` index never fails). -/
def lastDashPart (s : String) : String :=
  String.mk (((splitOnDash s.toList).getLast?).getD [])

/-- Decimal digit value of a character, if any (48 is the code point of
the zero digit). -/
def charDigit (c : Char) : Option Nat :=
  if c.isDigit then some (c.toNat - 48) else none

/-- Accumulate a decimal numeral; `none` on any non-digit character. -/
def digitsToNat (acc : Nat) : List Char → Option Nat
  | [] => some acc
  | c :: rest =>
    match charDigit c with
    | some d => digitsToNat (acc * 10 + d) rest
    | none => none

/-- Python `int(s)` as used on class-name suffixes: surrounding whitespace
is stripped, then a non-empty all-digit string parses in base 10 and
anything else raises `ValueError` (modeled as `none`).  The suffixes come
from `split('-')`, so a sign character can never occur. -/
def pyInt (s : String) : Option Nat :=
  match (pyStrip s).toList with
  | [] => none
  | cs => digitsToNat 0 cs

mutual
/-- A parsed DOM element: tag name, class list, attributes, the rendered
text of the element (BeautifulSoup's `.text`), and child elements.  The
child sequence is the isomorphic copy `Forest` of `List Node`, so that the
selector traversals below are structurally recursive and evaluate inside
the kernel. -/
inductive Node : Type where
  | mk (tag : String) (classes : List String) (attrs : List (String × String))
      (text : String) (children : Forest) : Node
deriving DecidableEq
/-- A sequence of sibling DOM elements. -/
inductive Forest : Type where
  | nil : Forest
  | cons (n : Node) (rest : Forest) : Forest
deriving DecidableEq
end

/-- Build a child sequence from a list. -/
def Forest.ofList : List Node → Forest
  | [] => Forest.nil
  | n :: rest => Forest.cons n (Forest.ofList rest)

/-- Tag name of a node. -/
def Node.tag : Node → String
  | .mk t _ _ _ _ => t

/-- Class list of a node (BeautifulSoup's `get('class', [])`). -/
def Node.classes : Node → List String
  | .mk _ k _ _ _ => k

/-- Attribute association list of a node. -/
def Node.attrs : Node → List (String × String)
  | .mk _ _ a _ _ => a

/-- Rendered text of a node (BeautifulSoup's `.text`). -/
def Node.text : Node → String
  | .mk _ _ _ x _ => x

/-- Children of a node. -/
def Node.children : Node → Forest
  | .mk _ _ _ _ cs => cs

/-- BeautifulSoup's `tag.get(key)`: first attribute with that name. -/
def Node.getAttr (n : Node) (k : String) : Option String :=
  match n.attrs.find? (fun p => p.fst == k) with
  | some p => some p.snd
  | none => none

/-- The fragment of CSS selectors the scraper uses: a tag name, an element
carrying all of a set of classes, or a comma-separated union. -/
inductive Sel : Type where
  | tag (t : String) : Sel
  | classes (cs : List String) : Sel
  | union (a b : Sel) : Sel

/-- Whether a single element matches a selector. -/
def selMatches : Sel → Node → Bool
  | Sel.tag t, n => n.tag == t
  | Sel.classes cs, n => cs.all (fun c => n.classes.contains c)
  | Sel.union a b, n => selMatches a n || selMatches b n

mutual
/-- All strict descendants of an element matching a selector, in document
(preorder) order. -/
def selectN (s : Sel) : Node → List Node
  | Node.mk _ _ _ _ cs => selectF s cs
/-- All elements of a sibling forest, or below them, matching a selector,
in document (preorder) order. -/
def selectF (s : Sel) : Forest → List Node
  | Forest.nil => []
  | Forest.cons n rest =>
    (if selMatches s n then [n] else []) ++ selectN s n ++ selectF s rest
end

/-- BeautifulSoup `element.select(s)`: matching strict descendants in
document order. -/
def select (s : Sel) (n : Node) : List Node :=
  selectN s n

/-- BeautifulSoup `element.select_one(s)`: first matching descendant. -/
def select_one (s : Sel) (n : Node) : Option Node :=
  (selectN s n).head?

mutual
/-- Descendant-combinator search below one element (for the selector
`h2 a`): descendants matching `i` with a strict ancestor, inside the
searched subtree, matching `o`; `found` records whether such an ancestor
has already been passed. -/
def selectUnderN (o i : Sel) (found : Bool) : Node → List Node
  | Node.mk _ _ _ _ cs => selectUnderF o i found cs
/-- Descendant-combinator search over a sibling forest. -/
def selectUnderF (o i : Sel) (found : Bool) : Forest → List Node
  | Forest.nil => []
  | Forest.cons n rest =>
    (if found && selMatches i n then [n] else [])
      ++ selectUnderN o i (found || selMatches o n) n
      ++ selectUnderF o i found rest
end

/-- `element.select_one('h2 a')`: first `a` below an `h2` within the
element. -/
def selectOneUnder (o i : Sel) (n : Node) : Option Node :=
  (selectUnderN o i false n).head?

/-- One amenity entry: `{'name': ..., 'available': ...}`. -/
structure Amenity where
  name : String
  available : Bool
deriving Repr, DecidableEq

/-- The lounge record built by `_extract_lounge_info`.  The Python code
builds a dict key by key; each `Option` field is `none` exactly when the
corresponding key was never inserted.  `url` is doubly optional because
`lounge_data['url'] = title_tag.get('href')` inserts the key even when the
attribute is missing (value `None`). -/
structure LoungeData where
  name : Option String := none
  url : Option (Option String) := none
  operator : Option String := none
  location : Option String := none
  hours : Option (List (String × String)) := none
  amenities : Option (List Amenity) := none
  rating : Option Nat := none
  badges : Option (List String) := none
  online_booking_available : Option Bool := none
deriving Repr, DecidableEq

/-- Python truthiness of the record dict (`if lounge_data:`): at least one
key was inserted. -/
def LoungeData.isNonEmpty (d : LoungeData) : Bool :=
  d.name.isSome || d.url.isSome || d.operator.isSome || d.location.isSome ||
    d.hours.isSome || d.amenities.isSome || d.rating.isSome || d.badges.isSome ||
    d.online_booking_available.isSome

/-- Python dict insertion (`hours_data[day] = hours`): overwrite in place
if the key exists, else append. -/
def assocInsert : List (String × String) → String → String → List (String × String)
  | [], k, v => [(k, v)]
  | (k0, v0) :: rest, k, v =>
    if k0 == k then (k0, v) :: rest else (k0, v0) :: assocInsert rest k v

/-- Step 1 of `_extract_lounge_info`: `title_tag = lounge_card.select_one('h2 a')`;
when found, insert `name` (stripped text) and `url` (the `href` attribute,
possibly `None`). -/
def nameStep (card : Node) (d : LoungeData) : LoungeData :=
  match selectOneUnder (Sel.tag "h2") (Sel.tag "a") card with
  | some titleTag =>
    { d with name := some (pyStrip titleTag.text), url := some (titleTag.getAttr "href") }
  | none => d

/-- Operator extraction inside the location container. -/
def operatorStep (locationDiv : Node) (d : LoungeData) : LoungeData :=
  match select_one (Sel.classes ["operatoralliance_listing_operator"]) locationDiv with
  | some operatorDiv =>
    match select_one (Sel.tag "a") operatorDiv with
    | some operatorTag => { d with operator := some (pyStrip operatorTag.text) }
    | none => d
  | none => d

/-- Address extraction inside the location container. -/
def addressStep (locationDiv : Node) (d : LoungeData) : LoungeData :=
  match select_one (Sel.classes ["geodir_address"]) locationDiv with
  | some addressDiv =>
    match select_one (Sel.classes ["address_details"]) addressDiv with
    | some addressSpan => { d with location := some (pyStrip addressSpan.text) }
    | none => d
  | none => d

/-- One day row of the business-hours table: rows missing either the
day-label or the time-range element are skipped. -/
def hoursRow (acc : List (String × String)) (dayDiv : Node) : List (String × String) :=
  match select_one (Sel.classes ["gd-bh-days-d"]) dayDiv,
      select_one (Sel.classes ["gd-bh-slot-r"]) dayDiv with
  | some dayName, some hoursSlot =>
    assocInsert acc (pyStrip dayName.text) (pyStrip hoursSlot.text)
  | _, _ => acc

/-- Business-hours extraction: when the hours container exists, the
`hours` key is inserted (possibly with an empty dict); when it does not,
the key is never inserted. -/
def hoursStep (locationDiv : Node) (d : LoungeData) : LoungeData :=
  match select_one (Sel.classes ["geodir-field-business_hours"]) locationDiv with
  | some hoursDiv =>
    { d with hours := some ((select (Sel.classes ["gd-bh-days-list"]) hoursDiv).foldl hoursRow []) }
  | none => d

/-- The three extraction steps performed inside `if location_div:` before
the amenities block, in source order. -/
def locSteps (locationDiv : Node) (d : LoungeData) : LoungeData :=
  hoursStep locationDiv (addressStep locationDiv (operatorStep locationDiv d))

/-- The amenity loop: for each `img`, read the `title` attribute; a missing
or empty attribute is skipped (`if title:`); otherwise
`name, status = title.split(': ')` destructures the label — `none` models
the `ValueError` raised when the split does not yield exactly two parts,
which aborts the whole loop (and, in the caller, the rest of the card). -/
def extractAmenityList : List Node → Option (List Amenity)
  | [] => some []
  | img :: rest =>
    match img.getAttr "title" with
    | none => extractAmenityList rest
    | some t =>
      if t == "" then extractAmenityList rest
      else
        match splitOnColonSpace t.toList with
        | [nm, st] =>
          match extractAmenityList rest with
          | some amens => some (Amenity.mk (String.mk nm) (String.mk st == "yes") :: amens)
          | none => none
        | _ => none

/-- The selector
`.geodir-post-rating-value-1, ..., .geodir-post-rating-value-5`. -/
def ratingSel : Sel :=
  Sel.union (Sel.classes ["geodir-post-rating-value-1"])
    (Sel.union (Sel.classes ["geodir-post-rating-value-2"])
      (Sel.union (Sel.classes ["geodir-post-rating-value-3"])
        (Sel.union (Sel.classes ["geodir-post-rating-value-4"])
          (Sel.classes ["geodir-post-rating-value-5"]))))

/-- The class-name stem tested by `cls.startswith('geodir-post-rating-value-')`. -/
def ratingClassStem : List Char := "geodir-post-rating-value-".toList

/-- The rating loop over the element's class list: for each class token
with the rating stem, `int(cls.split('-')[-1])` overwrites the value on
success and is ignored (`except: pass`) on failure; the initial value is 0. -/
def ratingFromClasses (classes : List String) : Nat :=
  classes.foldl
    (fun acc cls =>
      if ratingClassStem.isPrefixOf cls.toList then
        match pyInt (lastDashPart cls) with
        | some v => v
        | none => acc
      else acc) 0

/-- Rating extraction: the `rating` key is inserted only when an element
matches the rating selector. -/
def ratingStep (card : Node) (d : LoungeData) : LoungeData :=
  match select_one ratingSel card with
  | some ratingDiv => { d with rating := some (ratingFromClasses ratingDiv.classes) }
  | none => d

/-- Badge extraction: collect stripped non-empty badge texts; the `badges`
key is inserted only when that list is non-empty. -/
def badgesStep (card : Node) (d : LoungeData) : LoungeData :=
  match select_one (Sel.classes ["badges-container"]) card with
  | some badgesDiv =>
    let badges := (select (Sel.classes ["gd-badge"]) badgesDiv).filterMap
      (fun b => let t := pyStrip b.text; if t == "" then none else some t)
    if badges.isEmpty then d else { d with badges := some badges }
  | none => d

/-- Online-booking detection: the key is inserted (as `True`) only when the
marker element exists. -/
def bookingStep (card : Node) (d : LoungeData) : LoungeData :=
  match select_one (Sel.classes ["book-now-badge-details"]) card with
  | some _ => { d with online_booking_available := some true }
  | none => d

/-- The three steps after the location block, in source order: rating,
badges, online booking. -/
def tailSteps (card : Node) (d : LoungeData) : LoungeData :=
  bookingStep card (badgesStep card (ratingStep card d))

/-- `_extract_lounge_info`: build the record key by key inside a
`try`/`except` that catches any exception and returns the partial record.
The only statement that can raise is the amenity destructuring; when it
does, the record built so far is returned and the rating, badge and
booking steps never run. -/
def _extract_lounge_info (card : Node) : LoungeData :=
  let d := nameStep card {}
  match select_one (Sel.classes ["geodir-output-location"]) card with
  | none => tailSteps card d
  | some locationDiv =>
    let d2 := locSteps locationDiv d
    match select_one (Sel.classes ["geodir_more_info", "amenities"]) locationDiv with
    | none => tailSteps card d2
    | some amenitiesDiv =>
      match extractAmenityList (select (Sel.tag "img") amenitiesDiv) with
      | none => d2
      | some amens => tailSteps card { d2 with amenities := some amens }

/-- Whether extracting this card raises inside the amenity loop (the only
raising statement in `_extract_lounge_info`). -/
def cardRaises (card : Node) : Bool :=
  match select_one (Sel.classes ["geodir-output-location"]) card with
  | none => false
  | some locationDiv =>
    match select_one (Sel.classes ["geodir_more_info", "amenities"]) locationDiv with
    | none => false
    | some amenitiesDiv =>
      (extractAmenityList (select (Sel.tag "img") amenitiesDiv)).isNone

/-- The parse-and-extract portion of `scrape_page` applied to the captured
HTML: select the `.geodir-post` cards (early return on zero cards), run the
extractor on each, and keep a record iff the dict is truthy
(`if lounge_data:`). -/
def scrape_page_extract (soup : Node) : List LoungeData :=
  let cards := select (Sel.classes ["geodir-post"]) soup
  if cards.isEmpty then []
  else (cards.map _extract_lounge_info).filter LoungeData.isNonEmpty

/-- A JSON file write performed by the scraper: filename and the record
array serialized into it. -/
structure WriteOp where
  filename : String
  content : List LoungeData
deriving Repr, DecidableEq

/-- `save_lounges`: serialize the record list to the named file.  The body
has no `try`/`except`, so a failing write (modeled by the `writeFails`
oracle) raises — the exception leaves the function as an `Except.error`
instead of being reported through a return value. -/
def save_lounges (writeFails : String → Bool) (lounges : List LoungeData)
    (filename : String) : Except String WriteOp :=
  if writeFails filename then Except.error ("write failed: " ++ filename)
  else Except.ok (WriteOp.mk filename lounges)

/-- The body of `scrape_all_pages`' `for page_num in range(1, max_pages + 1)`
loop, with `scrape_page` abstracted into the page source `src` (the claims
quantify over it).  `fuel` is the number of loop iterations left
(`max_pages + 1 - page_num`).  Returns the pages fetched in order, the
snapshot writes performed, and either the final accumulator or the
exception that escaped a failing `save_lounges` call. -/
def scrapeLoop (writeFails : String → Bool) (src : Nat → List LoungeData) :
    Nat → Nat → List LoungeData → List Nat × List WriteOp × Except String (List LoungeData)
  | 0, _, acc => ([], [], Except.ok acc)
  | fuel + 1, pageNum, acc =>
    let pageLounges := src pageNum
    if pageLounges.isEmpty then
      ([pageNum], [], Except.ok acc)
    else
      let acc2 := acc ++ pageLounges
      match save_lounges writeFails acc2 ("lounges_page_" ++ toString pageNum ++ ".json") with
      | Except.error e => ([pageNum], [], Except.error e)
      | Except.ok w =>
        let t := scrapeLoop writeFails src fuel (pageNum + 1) acc2
        (pageNum :: t.1, w :: t.2.1, t.2.2)

/-- `scrape_all_pages`: run the crawl loop starting at page 1, then write
the combined `lounges_all.json` file.  An exception escaping any
`save_lounges` call propagates and aborts the run. -/
def scrape_all_pages (writeFails : String → Bool) (src : Nat → List LoungeData)
    (max_pages : Nat) : List Nat × List WriteOp × Except String (List LoungeData) :=
  let t := scrapeLoop writeFails src max_pages 1 []
  (t.1,
    match t.2.2 with
    | Except.error e => (t.2.1, Except.error e)
    | Except.ok acc =>
      match save_lounges writeFails acc "lounges_all.json" with
      | Except.error e => (t.2.1, Except.error e)
      | Except.ok w => (t.2.1 ++ [w], Except.ok acc))

/-- The prefix ordering on write contents: the array serialized by the
first write is an initial segment of the array serialized by the second. -/
def contentGrows (w1 w2 : WriteOp) : Prop :=
  w1.content <+: w2.content

/-- Modelled from the spec: the static-file mode is not part of `src/`
(only the live-crawl scraper is); §4.2 of the spec describes its card
lookup — locate cards with the primary selector `.geodir-post` and, when
that yields zero matches, retry with the single fallback selector
`.col.mb-4`. -/
def staticCardList (soup : Node) : List Node :=
  let cards := select (Sel.classes ["geodir-post"]) soup
  if cards.isEmpty then select (Sel.classes ["col", "mb-4"]) soup else cards

/-- Modelled from the spec: the static document parser of §4.2 — read one
HTML document (already parsed into `soup`), run the Record Extractor over
each located card, and keep only records with a non-empty name, preserving
document order. -/
def parseStaticDocument (soup : Node) : List LoungeData :=
  ((staticCardList soup).map _extract_lounge_info).filter
    (fun d => d.name.getD "" != "")

/-- Modelled from the spec: the static-file mode entry point of §2/§6 —
read one HTML document from the given path (`fs` models the filesystem;
a missing file is a fatal early exit producing no output), extract all
records, and write one JSON file with the results. -/
def run_static_mode (fs : String → Option Node) (inputPath : String) : Option WriteOp :=
  match fs inputPath with
  | none => none
  | some soup => some (WriteOp.mk "lounge_data.json" (parseStaticDocument soup))

/-- A card whose only content is the online-booking marker: no title
element, but the extracted dict is non-empty. -/
def cardC1 : Node :=
  Node.mk "div" ["geodir-post"] [] ""
    (Forest.ofList [Node.mk "span" ["book-now-badge-details"] [] "" Forest.nil])

/-- A page containing only `cardC1`. -/
def soupC1 : Node := Node.mk "html" [] [] "" (Forest.ofList [cardC1])

/-- A card with a normal title link. -/
def cardC1W : Node :=
  Node.mk "div" ["geodir-post"] [] ""
    (Forest.ofList [Node.mk "h2" [] [] ""
      (Forest.ofList [Node.mk "a" [] [("href", "/lounge-one")] "Lounge One" Forest.nil])])

/-- A page containing only `cardC1W`. -/
def soupC1W : Node := Node.mk "html" [] [] "" (Forest.ofList [cardC1W])

/-- Amenities container with one well-formed label followed by one label
with no `': '` separator. -/
def amC2 : Node :=
  Node.mk "div" ["geodir_more_info", "amenities"] [] ""
    (Forest.ofList [Node.mk "img" [] [("title", "Coffee: yes")] "" Forest.nil,
      Node.mk "img" [] [("title", "Free Wifi")] "" Forest.nil])

/-- Location container holding `amC2`. -/
def locC2 : Node :=
  Node.mk "div" ["geodir-output-location"] [] "" (Forest.ofList [amC2])

/-- A card with a malformed amenity label plus a rating element and a
booking marker that the claim expects to still be extracted. -/
def cardC2 : Node :=
  Node.mk "div" ["geodir-post"] [] ""
    (Forest.ofList [locC2,
      Node.mk "div" ["geodir-post-rating-value-4"] [] "" Forest.nil,
      Node.mk "span" ["book-now-badge-details"] [] "" Forest.nil])

/-- A card with a title but no element matching the rating selector. -/
def cardC5 : Node :=
  Node.mk "div" ["geodir-post"] [] ""
    (Forest.ofList [Node.mk "h2" [] [] ""
      (Forest.ofList [Node.mk "a" [] [] "Lounge X" Forest.nil])])

/-- A rating element carrying two parseable rating classes; the loop makes
the last one win. -/
def rdivC5W : Node :=
  Node.mk "div" ["geodir-post-rating-value-2", "geodir-post-rating-value-5"] [] "" Forest.nil

/-- A card whose only content is `rdivC5W`. -/
def cardC5W : Node := Node.mk "div" ["geodir-post"] [] "" (Forest.ofList [rdivC5W])

/-- A card with a location container but no business-hours block. -/
def cardC6 : Node :=
  Node.mk "div" ["geodir-post"] [] ""
    (Forest.ofList [Node.mk "div" ["geodir-output-location"] [] "" Forest.nil])

/-- A business-hours block with one complete day row. -/
def hoursDivC6 : Node :=
  Node.mk "div" ["geodir-field-business_hours"] [] ""
    (Forest.ofList [Node.mk "div" ["gd-bh-days-list"] [] ""
      (Forest.ofList [Node.mk "div" ["gd-bh-days-d"] [] "Monday" Forest.nil,
        Node.mk "div" ["gd-bh-slot-r"] [] "9am - 5pm" Forest.nil])])

/-- Location container holding `hoursDivC6`. -/
def locC6W : Node :=
  Node.mk "div" ["geodir-output-location"] [] "" (Forest.ofList [hoursDivC6])

/-- A card whose location container has a schedule block. -/
def cardC6W : Node := Node.mk "div" ["geodir-post"] [] "" (Forest.ofList [locC6W])

/-- An amenity icon with the given label attribute. -/
def mkImg (t : String) : Node := Node.mk "img" [] [("title", t)] "" Forest.nil

/-- A card whose single amenity label carries the capitalized token `Yes`. -/
def cardC7 : Node :=
  Node.mk "div" ["geodir-post"] [] ""
    (Forest.ofList [Node.mk "div" ["geodir-output-location"] [] ""
      (Forest.ofList [Node.mk "div" ["geodir_more_info", "amenities"] [] ""
        (Forest.ofList [mkImg "Wifi: Yes"])])])

/-- A page for the static mode whose primary selector matches. -/
def soupC3 : Node :=
  Node.mk "html" [] [] ""
    (Forest.ofList [Node.mk "div" ["geodir-post"] [] ""
      (Forest.ofList [Node.mk "h2" [] [] ""
        (Forest.ofList [Node.mk "a" [] [("href", "/alpha")] "Alpha" Forest.nil])])])

/-- A filesystem for the static mode holding `soupC3` at every path. -/
def fsC3 : String → Option Node := fun _ => some soupC3

/-- A record used by the crawl fixtures. -/
def recC4 : LoungeData := { name := some "Lounge Four" }

/-- A write oracle on which every write raises. -/
def wfAllFail : String → Bool := fun _ => true

/-- A write oracle on which every write succeeds. -/
def wfNone : String → Bool := fun _ => false

/-- A page source yielding one record on every page. -/
def srcC4 : Nat → List LoungeData := fun _ => [recC4]

/-- Records for the 3-2-0 crawl fixture. -/
def recA : LoungeData := { name := some "Lounge A" }

/-- Second record of the 3-2-0 crawl fixture. -/
def recB : LoungeData := { name := some "Lounge B" }

/-- Third record of the 3-2-0 crawl fixture. -/
def recC : LoungeData := { name := some "Lounge C" }

/-- Fourth record of the 3-2-0 crawl fixture. -/
def recD : LoungeData := { name := some "Lounge D" }

/-- Fifth record of the 3-2-0 crawl fixture. -/
def recE : LoungeData := { name := some "Lounge E" }

/-- A page source returning 3, 2 and 0 records for pages 1, 2 and 3. -/
def src8 : Nat → List LoungeData :=
  fun n => if n = 1 then [recA, recB, recC] else if n = 2 then [recD, recE] else []

/-- A page source on which every page is empty. -/
def srcEmpty : Nat → List LoungeData := fun _ => []


theorem nameStep_keeps (card : Node) (d : LoungeData) :
    (nameStep card d).operator = d.operator ∧ (nameStep card d).location = d.location ∧
    (nameStep card d).hours = d.hours ∧ (nameStep card d).amenities = d.amenities ∧
    (nameStep card d).rating = d.rating ∧ (nameStep card d).badges = d.badges ∧
    (nameStep card d).online_booking_available = d.online_booking_available := by
  unfold nameStep
  cases h : selectOneUnder (Sel.tag "h2") (Sel.tag "a") card <;> simp [h]

theorem operatorStep_keeps (loc : Node) (d : LoungeData) :
    (operatorStep loc d).name = d.name ∧ (operatorStep loc d).url = d.url ∧
    (operatorStep loc d).location = d.location ∧ (operatorStep loc d).hours = d.hours ∧
    (operatorStep loc d).amenities = d.amenities ∧ (operatorStep loc d).rating = d.rating ∧
    (operatorStep loc d).badges = d.badges ∧
    (operatorStep loc d).online_booking_available = d.online_booking_available := by
  unfold operatorStep
  cases h : select_one (Sel.classes ["operatoralliance_listing_operator"]) loc with
  | none => simp
  | some od => cases h2 : select_one (Sel.tag "a") od <;> simp [h2]

theorem addressStep_keeps (loc : Node) (d : LoungeData) :
    (addressStep loc d).name = d.name ∧ (addressStep loc d).url = d.url ∧
    (addressStep loc d).operator = d.operator ∧ (addressStep loc d).hours = d.hours ∧
    (addressStep loc d).amenities = d.amenities ∧ (addressStep loc d).rating = d.rating ∧
    (addressStep loc d).badges = d.badges ∧
    (addressStep loc d).online_booking_available = d.online_booking_available := by
  unfold addressStep
  cases h : select_one (Sel.classes ["geodir_address"]) loc with
  | none => simp
  | some ad => cases h2 : select_one (Sel.classes ["address_details"]) ad <;> simp [h2]

theorem hoursStep_keeps (loc : Node) (d : LoungeData) :
    (hoursStep loc d).name = d.name ∧ (hoursStep loc d).url = d.url ∧
    (hoursStep loc d).operator = d.operator ∧ (hoursStep loc d).location = d.location ∧
    (hoursStep loc d).amenities = d.amenities ∧ (hoursStep loc d).rating = d.rating ∧
    (hoursStep loc d).badges = d.badges ∧
    (hoursStep loc d).online_booking_available = d.online_booking_available := by
  unfold hoursStep
  cases h : select_one (Sel.classes ["geodir-field-business_hours"]) loc <;> simp [h]

theorem ratingStep_keeps (card : Node) (d : LoungeData) :
    (ratingStep card d).name = d.name ∧ (ratingStep card d).url = d.url ∧
    (ratingStep card d).operator = d.operator ∧ (ratingStep card d).location = d.location ∧
    (ratingStep card d).hours = d.hours ∧ (ratingStep card d).amenities = d.amenities ∧
    (ratingStep card d).badges = d.badges ∧
    (ratingStep card d).online_booking_available = d.online_booking_available := by
  unfold ratingStep
  cases h : select_one ratingSel card <;> simp [h]

theorem badgesStep_keeps (card : Node) (d : LoungeData) :
    (badgesStep card d).name = d.name ∧ (badgesStep card d).url = d.url ∧
    (badgesStep card d).operator = d.operator ∧ (badgesStep card d).location = d.location ∧
    (badgesStep card d).hours = d.hours ∧ (badgesStep card d).amenities = d.amenities ∧
    (badgesStep card d).rating = d.rating ∧
    (badgesStep card d).online_booking_available = d.online_booking_available := by
  unfold badgesStep
  cases h : select_one (Sel.classes ["badges-container"]) card with
  | none => simp
  | some bd =>
    simp only [h]
    split <;> simp

theorem bookingStep_keeps (card : Node) (d : LoungeData) :
    (bookingStep card d).name = d.name ∧ (bookingStep card d).url = d.url ∧
    (bookingStep card d).operator = d.operator ∧ (bookingStep card d).location = d.location ∧
    (bookingStep card d).hours = d.hours ∧ (bookingStep card d).amenities = d.amenities ∧
    (bookingStep card d).rating = d.rating ∧ (bookingStep card d).badges = d.badges := by
  unfold bookingStep
  cases h : select_one (Sel.classes ["book-now-badge-details"]) card <;> simp [h]

theorem tailSteps_keeps (card : Node) (d : LoungeData) :
    (tailSteps card d).name = d.name ∧ (tailSteps card d).url = d.url ∧
    (tailSteps card d).operator = d.operator ∧ (tailSteps card d).location = d.location ∧
    (tailSteps card d).hours = d.hours ∧ (tailSteps card d).amenities = d.amenities := by
  unfold tailSteps
  simp [bookingStep_keeps, badgesStep_keeps, ratingStep_keeps]

theorem locSteps_keeps (loc : Node) (d : LoungeData) :
    (locSteps loc d).name = d.name ∧ (locSteps loc d).url = d.url ∧
    (locSteps loc d).amenities = d.amenities ∧ (locSteps loc d).rating = d.rating ∧
    (locSteps loc d).badges = d.badges ∧
    (locSteps loc d).online_booking_available = d.online_booking_available := by
  unfold locSteps
  simp [hoursStep_keeps, addressStep_keeps, operatorStep_keeps]

theorem tailSteps_rating_of_some (card : Node) (d : LoungeData) (rdiv : Node)
    (h : select_one ratingSel card = some rdiv) :
    (tailSteps card d).rating = some (ratingFromClasses rdiv.classes) := by
  unfold tailSteps ratingStep
  rw [h]
  simp [bookingStep_keeps, badgesStep_keeps]

theorem tailSteps_rating_of_none (card : Node) (d : LoungeData)
    (h : select_one ratingSel card = none) :
    (tailSteps card d).rating = d.rating := by
  unfold tailSteps ratingStep
  rw [h]
  simp [bookingStep_keeps, badgesStep_keeps]

theorem hoursStep_of_some (loc : Node) (d : LoungeData) (hd : Node)
    (h : select_one (Sel.classes ["geodir-field-business_hours"]) loc = some hd) :
    (hoursStep loc d).hours =
      some ((select (Sel.classes ["gd-bh-days-list"]) hd).foldl hoursRow []) := by
  unfold hoursStep
  rw [h]

theorem hoursStep_of_none (loc : Node) (d : LoungeData)
    (h : select_one (Sel.classes ["geodir-field-business_hours"]) loc = none) :
    (hoursStep loc d).hours = d.hours := by
  unfold hoursStep
  rw [h]

theorem locSteps_hours (loc : Node) (d : LoungeData) :
    (locSteps loc d).hours = (hoursStep loc (addressStep loc (operatorStep loc d))).hours :=
  rfl


/-- C1 counterexample: `scrape_page` keeps a record iff the dict is truthy
(`if lounge_data:`), not iff `name` is present and non-empty.  A card with
no title element but with a booking marker yields a record without a
`name` key that is nevertheless retained in the page's output list. -/
theorem nameless_record_retained :
    scrape_page_extract soupC1 = [{ online_booking_available := some true }] ∧
    LoungeData.name { online_booking_available := some true } = none :=
  ⟨by decide, rfl⟩

/-- C1 amended: a record produced by the extractor is retained in the
page's output list iff the record dict is non-empty (at least one field
was extracted); a card lacking a title element is excluded only when no
other field was populated, and a record lacking a `name` can be
retained. -/
theorem page_filter_keeps_exactly_truthy (soup : Node) :
    (∀ d ∈ scrape_page_extract soup, d.isNonEmpty = true) ∧
    (∀ card ∈ select (Sel.classes ["geodir-post"]) soup,
      (_extract_lounge_info card).isNonEmpty = true →
      _extract_lounge_info card ∈ scrape_page_extract soup) := by
  cases hc : select (Sel.classes ["geodir-post"]) soup with
  | nil =>
    simp only [scrape_page_extract, hc]
    simp
  | cons c cs =>
    simp only [scrape_page_extract, hc, List.isEmpty_cons, Bool.false_eq_true, if_false]
    constructor
    · intro d hd
      exact (List.mem_filter.mp hd).2
    · intro card hcard htruthy
      exact List.mem_filter.mpr ⟨List.mem_map_of_mem _ hcard, htruthy⟩

/-- Witness for the amended C1 at a concrete page: the record of a titled
card is non-empty and is retained. -/
theorem page_filter_keeps_exactly_truthy_witness :
    _extract_lounge_info cardC1W ∈ scrape_page_extract soupC1W :=
  (page_filter_keeps_exactly_truthy soupC1W).2 cardC1W (by decide) (by decide)

theorem extract_of_no_loc (card : Node)
    (h : select_one (Sel.classes ["geodir-output-location"]) card = none) :
    _extract_lounge_info card = tailSteps card (nameStep card {}) := by
  simp only [_extract_lounge_info, h]

theorem extract_of_no_amenities (card loc : Node)
    (h1 : select_one (Sel.classes ["geodir-output-location"]) card = some loc)
    (h2 : select_one (Sel.classes ["geodir_more_info", "amenities"]) loc = none) :
    _extract_lounge_info card = tailSteps card (locSteps loc (nameStep card {})) := by
  simp only [_extract_lounge_info, h1, h2]

theorem extract_of_amenities (card loc am : Node) (amens : List Amenity)
    (h1 : select_one (Sel.classes ["geodir-output-location"]) card = some loc)
    (h2 : select_one (Sel.classes ["geodir_more_info", "amenities"]) loc = some am)
    (h3 : extractAmenityList (select (Sel.tag "img") am) = some amens) :
    _extract_lounge_info card =
      tailSteps card { locSteps loc (nameStep card {}) with amenities := some amens } := by
  simp only [_extract_lounge_info, h1, h2, h3]

theorem extract_of_raise (card loc am : Node)
    (h1 : select_one (Sel.classes ["geodir-output-location"]) card = some loc)
    (h2 : select_one (Sel.classes ["geodir_more_info", "amenities"]) loc = some am)
    (h3 : extractAmenityList (select (Sel.tag "img") am) = none) :
    _extract_lounge_info card = locSteps loc (nameStep card {}) := by
  simp only [_extract_lounge_info, h1, h2, h3]

/-- C2 counterexample: an amenity label without the `': '` separator makes
`name, status = title.split(': ')` raise; the card-level `except` catches
it, so the amenity is not merely skipped — the `amenities` key is never
inserted (dropping the earlier well-formed amenity too) and the remaining
steps (rating, badges, booking marker) never run, although `cardC2` has a
rating element and a booking marker. -/
theorem malformed_label_skips_rest_of_card :
    (_extract_lounge_info cardC2).amenities = none ∧
    (_extract_lounge_info cardC2).rating = none ∧
    (_extract_lounge_info cardC2).online_booking_available = none := by
  decide

/-- C2 amended: an amenity label that does not split into exactly two
parts on `': '` raises an exception that is caught at the card level; the
extractor returns the partial record built before the amenity loop, and
the amenities, rating, badges and booking fields of that card all stay
unset (the run itself continues). -/
theorem amenity_exception_stops_card (card loc am : Node)
    (h1 : select_one (Sel.classes ["geodir-output-location"]) card = some loc)
    (h2 : select_one (Sel.classes ["geodir_more_info", "amenities"]) loc = some am)
    (h3 : extractAmenityList (select (Sel.tag "img") am) = none) :
    _extract_lounge_info card = locSteps loc (nameStep card {}) ∧
    (_extract_lounge_info card).amenities = none ∧
    (_extract_lounge_info card).rating = none ∧
    (_extract_lounge_info card).badges = none ∧
    (_extract_lounge_info card).online_booking_available = none := by
  have he := extract_of_raise card loc am h1 h2 h3
  refine ⟨he, ?_, ?_, ?_, ?_⟩ <;> rw [he] <;> simp [locSteps_keeps, nameStep_keeps]

/-- Witness for the amended C2 at a concrete card with a malformed label:
the extractor returns exactly the pre-amenity partial record. -/
theorem amenity_exception_stops_card_witness :
    _extract_lounge_info cardC2 = locSteps locC2 (nameStep cardC2 {}) :=
  (amenity_exception_stops_card cardC2 locC2 amC2 (by decide) (by decide) (by decide)).1

/-- C5 counterexample: when no element matches the rating selector, the
`rating` key is never inserted into the record — the field is absent, not
the integer 0 that the claim requires. -/
theorem missing_rating_element_leaves_field_absent :
    (_extract_lounge_info cardC5).rating = none ∧
    (_extract_lounge_info cardC5).rating ≠ some 0 := by
  decide

/-- C5 amended: on any card whose amenity loop does not raise, the
`rating` field is absent when no element matches the rating selector, and
otherwise equals the integer obtained by folding over the matched
element's class tokens, where each successfully parsed
`geodir-post-rating-value-` token overwrites the value (so the last parsed
one wins, `...-value-4` yields 4, and a malformed suffix leaves the value
unchanged instead of resetting it to 0). -/
theorem rating_field_semantics (card : Node) (h : cardRaises card = false) :
    (select_one ratingSel card = none → (_extract_lounge_info card).rating = none) ∧
    (∀ rdiv, select_one ratingSel card = some rdiv →
      (_extract_lounge_info card).rating = some (ratingFromClasses rdiv.classes)) ∧
    ratingFromClasses ["geodir-post-rating-value-4"] = 4 ∧
    ratingFromClasses ["geodir-post-rating-value-2", "geodir-post-rating-value-5"] = 5 ∧
    ratingFromClasses ["geodir-post-rating-value-4", "geodir-post-rating-value-x"] = 4 := by
  have key : ∀ P : Prop,
      (∀ d : LoungeData, d.rating = none → _extract_lounge_info card = tailSteps card d → P) → P := by
    intro P hP
    cases h1 : select_one (Sel.classes ["geodir-output-location"]) card with
    | none =>
      exact hP (nameStep card {}) (by simp [nameStep_keeps]) (extract_of_no_loc card h1)
    | some loc =>
      cases h2 : select_one (Sel.classes ["geodir_more_info", "amenities"]) loc with
      | none =>
        exact hP (locSteps loc (nameStep card {}))
          (by simp [locSteps_keeps, nameStep_keeps]) (extract_of_no_amenities card loc h1 h2)
      | some am =>
        cases h3 : extractAmenityList (select (Sel.tag "img") am) with
        | none =>
          exfalso
          unfold cardRaises at h
          simp only [h1, h2, h3] at h
          simp at h
        | some amens =>
          exact hP { locSteps loc (nameStep card {}) with amenities := some amens }
            (by simp [locSteps_keeps, nameStep_keeps])
            (extract_of_amenities card loc am amens h1 h2 h3)
  refine ⟨?_, ?_, by decide, by decide, by decide⟩
  · intro hsel
    refine key _ (fun d hd he => ?_)
    rw [he, tailSteps_rating_of_none card d hsel, hd]
  · intro rdiv hsel
    refine key _ (fun d hd he => ?_)
    rw [he, tailSteps_rating_of_some card d rdiv hsel]

/-- Witness for the amended C5 at a concrete card whose rating element
carries the class tokens `...-value-2` and `...-value-5`: the last one
wins. -/
theorem rating_field_semantics_witness :
    (_extract_lounge_info cardC5W).rating = some 5 := by
  have h := (rating_field_semantics cardC5W (by decide)).2.1 rdivC5W (by decide)
  rw [h]
  decide

theorem extract_hours_through_tail (card loc : Node)
    (h1 : select_one (Sel.classes ["geodir-output-location"]) card = some loc) :
    (_extract_lounge_info card).hours = (locSteps loc (nameStep card {})).hours := by
  cases h2 : select_one (Sel.classes ["geodir_more_info", "amenities"]) loc with
  | none =>
    rw [extract_of_no_amenities card loc h1 h2]
    simp [tailSteps_keeps]
  | some am =>
    cases h3 : extractAmenityList (select (Sel.tag "img") am) with
    | none => rw [extract_of_raise card loc am h1 h2 h3]
    | some amens =>
      rw [extract_of_amenities card loc am amens h1 h2 h3]
      simp [tailSteps_keeps]

/-- C6 counterexample: when the location container has no business-hours
block, the `hours` key is never inserted — the field is absent from the
record, not present as an empty mapping. -/
theorem missing_hours_block_leaves_field_absent :
    (_extract_lounge_info cardC6).hours = none ∧
    (_extract_lounge_info cardC6).hours ≠ some [] := by
  decide

/-- C6 amended: when no schedule block is present (no location container,
or a location container without a business-hours element), the `hours`
field is absent from the record; when the business-hours element is
present, `hours` is inserted (an empty mapping when no valid day rows
exist) with the day rows folded in document order. -/
theorem hours_field_semantics (card : Node) :
    (select_one (Sel.classes ["geodir-output-location"]) card = none →
      (_extract_lounge_info card).hours = none) ∧
    (∀ loc, select_one (Sel.classes ["geodir-output-location"]) card = some loc →
      ((select_one (Sel.classes ["geodir-field-business_hours"]) loc = none →
        (_extract_lounge_info card).hours = none) ∧
       (∀ hd, select_one (Sel.classes ["geodir-field-business_hours"]) loc = some hd →
        (_extract_lounge_info card).hours =
          some ((select (Sel.classes ["gd-bh-days-list"]) hd).foldl hoursRow [])))) := by
  constructor
  · intro h1
    rw [extract_of_no_loc card h1]
    simp [tailSteps_keeps, nameStep_keeps]
  · intro loc h1
    constructor
    · intro hz
      rw [extract_hours_through_tail card loc h1, locSteps_hours,
        hoursStep_of_none loc _ hz]
      simp [addressStep_keeps, operatorStep_keeps, nameStep_keeps]
    · intro hd hsel
      rw [extract_hours_through_tail card loc h1, locSteps_hours,
        hoursStep_of_some loc _ hd hsel]

/-- Witness for the amended C6 at a concrete card with one complete day
row: `hours` is present with that single entry. -/
theorem hours_field_semantics_witness :
    (_extract_lounge_info cardC6W).hours = some [("Monday", "9am - 5pm")] := by
  have h := ((hours_field_semantics cardC6W).2 locC6W (by decide)).2 hoursDivC6 (by decide)
  rw [h]
  decide

/-- C7 counterexample: the code compares the yes/no token with `status ==
'yes'`, which is case-sensitive; the label `Wifi: Yes` therefore yields
`available = False`, not `True` as the claim requires. -/
theorem uppercase_yes_marks_unavailable :
    (_extract_lounge_info cardC7).amenities =
      some [{ name := "Wifi", available := false }] ∧
    (_extract_lounge_info cardC7).amenities ≠
      some [{ name := "Wifi", available := true }] := by
  decide

/-- C7 amended: for a label splitting into exactly two parts on `': '`,
the right-hand token decides `available` by case-sensitive equality with
the exact string `yes`; capitalized variants such as `Yes` and `YES` are
not equal to `yes` and therefore yield `available = false`. -/
theorem amenity_token_compared_exactly (t : String) (nmc stc : List Char)
    (ht : (t == "") = false)
    (hsplit : splitOnColonSpace t.toList = [nmc, stc]) :
    extractAmenityList [mkImg t] =
      some [Amenity.mk (String.mk nmc) (String.mk stc == "yes")] ∧
    ((String.mk stc == "yes") = true ↔ String.mk stc = "yes") ∧
    ("Yes" == "yes") = false ∧ ("YES" == "yes") = false := by
  refine ⟨?_, by simp, by decide, by decide⟩
  simp only [String.toList] at hsplit
  simp only [extractAmenityList, mkImg, Node.getAttr, Node.attrs, List.find?, ht, hsplit]
  simp [ht, hsplit]

/-- Witness for the amended C7 at the concrete label `Wifi: no`: the token
`no` is not `yes`, so the amenity is recorded as unavailable. -/
theorem amenity_token_compared_exactly_witness :
    extractAmenityList [mkImg "Wifi: no"] = some [Amenity.mk "Wifi" false] := by
  have h := (amenity_token_compared_exactly "Wifi: no" "Wifi".toList "no".toList
    (by decide) (by decide)).1
  rw [h]
  decide

/-- C3: the (spec-modelled) static-file mode reads one HTML document from
the given path and writes exactly one JSON file containing the extracted
records; cards are located with the primary selector `.geodir-post`, and
when it yields zero matches the single fallback selector `.col.mb-4` is
tried instead. -/
theorem static_mode_contract (fs : String → Option Node) (path : String) (soup : Node)
    (h : fs path = some soup) :
    run_static_mode fs path =
      some (WriteOp.mk "lounge_data.json" (parseStaticDocument soup)) ∧
    (select (Sel.classes ["geodir-post"]) soup ≠ [] →
      staticCardList soup = select (Sel.classes ["geodir-post"]) soup) ∧
    (select (Sel.classes ["geodir-post"]) soup = [] →
      staticCardList soup = select (Sel.classes ["col", "mb-4"]) soup) := by
  refine ⟨?_, ?_, ?_⟩
  · simp only [run_static_mode, h]
  · intro hne
    unfold staticCardList
    cases hc : select (Sel.classes ["geodir-post"]) soup with
    | nil => exact absurd hc hne
    | cons c cs => simp
  · intro hz
    unfold staticCardList
    rw [hz]
    simp

/-- Witness for C3 at a concrete filesystem and page: one output file is
written. -/
theorem static_mode_contract_witness :
    run_static_mode fsC3 "saved_page.html" =
      some (WriteOp.mk "lounge_data.json" (parseStaticDocument soupC3)) :=
  (static_mode_contract fsC3 "saved_page.html" soupC3 rfl).1

theorem scrapeLoop_stop (writeFails : String → Bool) (src : Nat → List LoungeData)
    (fuel p : Nat) (acc : List LoungeData) (h : (src p).isEmpty = true) :
    scrapeLoop writeFails src (fuel + 1) p acc = ([p], [], Except.ok acc) := by
  simp [scrapeLoop, h]

theorem scrapeLoop_step (writeFails : String → Bool) (src : Nat → List LoungeData)
    (fuel p : Nat) (acc : List LoungeData) (hne : (src p).isEmpty = false)
    (hw : writeFails ("lounges_page_" ++ toString p ++ ".json") = false) :
    scrapeLoop writeFails src (fuel + 1) p acc =
      (p :: (scrapeLoop writeFails src fuel (p + 1) (acc ++ src p)).1,
       WriteOp.mk ("lounges_page_" ++ toString p ++ ".json") (acc ++ src p) ::
         (scrapeLoop writeFails src fuel (p + 1) (acc ++ src p)).2.1,
       (scrapeLoop writeFails src fuel (p + 1) (acc ++ src p)).2.2) := by
  simp [scrapeLoop, save_lounges, hne, hw]

theorem scrapeLoop_save_error (writeFails : String → Bool) (src : Nat → List LoungeData)
    (fuel p : Nat) (acc : List LoungeData) (hne : (src p).isEmpty = false)
    (hw : writeFails ("lounges_page_" ++ toString p ++ ".json") = true) :
    scrapeLoop writeFails src (fuel + 1) p acc =
      ([p], [],
       Except.error ("write failed: " ++ ("lounges_page_" ++ toString p ++ ".json"))) := by
  simp [scrapeLoop, save_lounges, hne, hw]

/-- C4 counterexample: `save_lounges` contains no `try`/`except`, so on a
run where the very first snapshot write raises, the exception propagates
out of `scrape_all_pages` and aborts the crawl — the run ends with the
exception instead of a reported-and-contained failure (no later pages are
fetched and no final file is written). -/
theorem write_failure_crashes_run :
    scrape_all_pages wfAllFail srcC4 10 =
      ([1], [], Except.error "write failed: lounges_page_1.json") := by
  rfl

/-- C4 amended: an exception raised while serializing a snapshot is not
caught by `save_lounges` (whose body has no handler) and not signalled via
a return value: it propagates through `scrape_all_pages`, which stops
fetching and never writes the final combined file. -/
theorem save_exception_propagates (writeFails : String → Bool)
    (src : Nat → List LoungeData) (mp : Nat) (r : LoungeData) (rest : List LoungeData)
    (hmp : 1 ≤ mp) (hsrc : src 1 = r :: rest)
    (hwf : writeFails "lounges_page_1.json" = true) :
    scrape_all_pages writeFails src mp =
      ([1], [], Except.error "write failed: lounges_page_1.json") := by
  obtain ⟨k, rfl⟩ : ∃ k, mp = k + 1 := ⟨mp - 1, by omega⟩
  have hne : (src 1).isEmpty = false := by rw [hsrc]; rfl
  have e := scrapeLoop_save_error writeFails src k 1 [] hne hwf
  simp only [scrape_all_pages, e]
  rfl

/-- Witness for the amended C4 at a concrete failing filesystem. -/
theorem save_exception_propagates_witness :
    scrape_all_pages wfAllFail srcC4 3 =
      ([1], [], Except.error "write failed: lounges_page_1.json") :=
  save_exception_propagates wfAllFail srcC4 3 recC4 [] (by decide) rfl rfl

/-- C8: for any page source returning 3, 2 and 0 records on pages 1, 2 and
3 and any configured maximum of at least 3 pages, the crawl fetches pages
1, 2 and 3 and then stops; snapshot files are written for pages 1 and 2
only; the accumulator holds the 5 records in page order; and the final
combined file is still written with all 5 records. -/
theorem crawl_exhaustion_run (a1 a2 a3 b1 b2 : LoungeData)
    (src : Nat → List LoungeData) (mp : Nat)
    (h1 : src 1 = [a1, a2, a3]) (h2 : src 2 = [b1, b2]) (h3 : src 3 = [])
    (hmp : 3 ≤ mp) :
    scrape_all_pages wfNone src mp =
      ([1, 2, 3],
       [WriteOp.mk "lounges_page_1.json" [a1, a2, a3],
        WriteOp.mk "lounges_page_2.json" [a1, a2, a3, b1, b2],
        WriteOp.mk "lounges_all.json" [a1, a2, a3, b1, b2]],
       Except.ok [a1, a2, a3, b1, b2]) ∧
    List.length [a1, a2, a3, b1, b2] = 5 := by
  obtain ⟨k, rfl⟩ : ∃ k, mp = k + 3 := ⟨mp - 3, by omega⟩
  have hne1 : (src 1).isEmpty = false := by rw [h1]; rfl
  have hne2 : (src 2).isEmpty = false := by rw [h2]; rfl
  have hz3 : (src 3).isEmpty = true := by rw [h3]; rfl
  have e1 := scrapeLoop_step wfNone src (k + 2) 1 [] hne1 rfl
  have e2 := scrapeLoop_step wfNone src (k + 1) 2 ([] ++ src 1) hne2 rfl
  have e3 := scrapeLoop_stop wfNone src k 3 (([] ++ src 1) ++ src 2) hz3
  refine ⟨?_, rfl⟩
  rw [show k + 3 = k + 2 + 1 from rfl]
  simp only [scrape_all_pages]
  rw [e1, show k + 2 = k + 1 + 1 from rfl, e2, e3]
  simp only [h1, h2, List.nil_append]
  rfl

/-- Witness for C8 at the concrete 3-2-0 source and the default maximum of
10 pages. -/
theorem crawl_exhaustion_run_witness :
    scrape_all_pages wfNone src8 10 =
      ([1, 2, 3],
       [WriteOp.mk "lounges_page_1.json" [recA, recB, recC],
        WriteOp.mk "lounges_page_2.json" [recA, recB, recC, recD, recE],
        WriteOp.mk "lounges_all.json" [recA, recB, recC, recD, recE]],
       Except.ok [recA, recB, recC, recD, recE]) :=
  (crawl_exhaustion_run recA recB recC recD recE src8 10 rfl rfl rfl (by decide)).1

theorem scrapeLoop_fetch_bound (writeFails : String → Bool)
    (src : Nat → List LoungeData) :
    ∀ (fuel p : Nat) (acc : List LoungeData),
      (scrapeLoop writeFails src fuel p acc).1.length ≤ fuel := by
  intro fuel
  induction fuel with
  | zero => intro p acc; simp [scrapeLoop]
  | succ n ih =>
    intro p acc
    simp only [scrapeLoop]
    cases h : (src p).isEmpty with
    | true => simp
    | false =>
      simp only [Bool.false_eq_true, if_false]
      cases hw : save_lounges writeFails (acc ++ src p)
          ("lounges_page_" ++ toString p ++ ".json") with
      | error e => simp
      | ok w =>
        simpa using Nat.succ_le_succ (ih (p + 1) (acc ++ src p))

/-- C9: for every write oracle, page source and configured maximum, the
crawl loop fetches at most `max_pages` pages; and with a maximum of 2 and
a source yielding one record per page, it fetches exactly pages 1 and 2
and the final combined file contains the 2 records. -/
theorem crawl_bounded_by_max_pages (writeFails : String → Bool)
    (src : Nat → List LoungeData) (mp : Nat) (r : LoungeData) :
    (scrape_all_pages writeFails src mp).1.length ≤ mp ∧
    scrape_all_pages wfNone (fun _ => [r]) 2 =
      ([1, 2],
       [WriteOp.mk "lounges_page_1.json" [r],
        WriteOp.mk "lounges_page_2.json" [r, r],
        WriteOp.mk "lounges_all.json" [r, r]],
       Except.ok [r, r]) := by
  constructor
  · exact scrapeLoop_fetch_bound writeFails src mp 1 []
  · rfl

theorem scrapeLoop_writes_grow (writeFails : String → Bool)
    (src : Nat → List LoungeData) :
    ∀ (fuel p : Nat) (acc : List LoungeData),
      (∀ w ∈ (scrapeLoop writeFails src fuel p acc).2.1, acc <+: w.content) ∧
      List.Pairwise contentGrows (scrapeLoop writeFails src fuel p acc).2.1 ∧
      (∀ accF, (scrapeLoop writeFails src fuel p acc).2.2 = Except.ok accF →
        acc <+: accF ∧
        ∀ w ∈ (scrapeLoop writeFails src fuel p acc).2.1, w.content <+: accF) := by
  intro fuel
  induction fuel with
  | zero =>
    intro p acc
    refine ⟨by simp [scrapeLoop], by simp [scrapeLoop], ?_⟩
    intro accF hF
    simp only [scrapeLoop, Except.ok.injEq] at hF
    subst hF
    exact ⟨List.prefix_refl acc, by simp [scrapeLoop]⟩
  | succ n ih =>
    intro p acc
    simp only [scrapeLoop]
    cases h : (src p).isEmpty with
    | true =>
      simp only [if_true]
      refine ⟨by simp, by simp, ?_⟩
      intro accF hF
      simp only [Except.ok.injEq] at hF
      subst hF
      exact ⟨List.prefix_refl acc, by simp⟩
    | false =>
      simp only [Bool.false_eq_true, if_false]
      cases hw : save_lounges writeFails (acc ++ src p)
          ("lounges_page_" ++ toString p ++ ".json") with
      | error e =>
        refine ⟨by simp, by simp, ?_⟩
        intro accF hF
        simp at hF
      | ok w =>
        have hwc : w.content = acc ++ src p := by
          unfold save_lounges at hw
          cases hwf : writeFails ("lounges_page_" ++ toString p ++ ".json") with
          | true => rw [hwf] at hw; simp at hw
          | false =>
            rw [hwf] at hw
            simp only [Bool.false_eq_true, if_false, Except.ok.injEq] at hw
            rw [← hw]
        have ih1 := (ih (p + 1) (acc ++ src p)).1
        have ih2 := (ih (p + 1) (acc ++ src p)).2.1
        have ih3 := (ih (p + 1) (acc ++ src p)).2.2
        have hpre : acc <+: acc ++ src p := List.prefix_append acc (src p)
        refine ⟨?_, ?_, ?_⟩
        · intro v hv
          simp only [List.mem_cons] at hv
          rcases hv with hv | hv
          · rw [hv, hwc]; exact hpre
          · exact hpre.trans (ih1 v hv)
        · refine List.pairwise_cons.mpr ⟨?_, ih2⟩
          intro v hv
          show w.content <+: v.content
          rw [hwc]
          exact ih1 v hv
        · intro accF hF
          obtain ⟨hp1, hp2⟩ := ih3 accF hF
          refine ⟨hpre.trans hp1, ?_⟩
          intro v hv
          simp only [List.mem_cons] at hv
          rcases hv with hv | hv
          · rw [hv, hwc]; exact hp1
          · exact hp2 v hv

/-- C10: over any run of the crawl loop, the record arrays serialized by
the writes it performs grow only by appending: each earlier write's array
is a prefix of every later write's array — in particular each
`lounges_page_n.json` is a prefix of `lounges_page_(n+1).json`, and every
snapshot is a prefix of the final `lounges_all.json` when it is written. -/
theorem snapshot_contents_grow (writeFails : String → Bool)
    (src : Nat → List LoungeData) (mp : Nat) (ps : List Nat) (ws : List WriteOp)
    (r : Except String (List LoungeData))
    (h : scrape_all_pages writeFails src mp = (ps, ws, r)) :
    List.Pairwise contentGrows ws := by
  have key := scrapeLoop_writes_grow writeFails src mp 1 []
  simp only [scrape_all_pages] at h
  cases hr : (scrapeLoop writeFails src mp 1 []).2.2 with
  | error e =>
    rw [hr] at h
    simp only [Prod.mk.injEq] at h
    obtain ⟨hps, hws, hrr⟩ := h
    rw [← hws]
    exact key.2.1
  | ok acc =>
    rw [hr] at h
    cases hwf : writeFails "lounges_all.json" with
    | true =>
      simp only [save_lounges, hwf, if_true, Prod.mk.injEq] at h
      obtain ⟨hps, hws, hrr⟩ := h
      rw [← hws]
      exact key.2.1
    | false =>
      simp only [save_lounges, hwf, Bool.false_eq_true, if_false, Prod.mk.injEq] at h
      obtain ⟨hps, hws, hrr⟩ := h
      rw [← hws]
      refine List.pairwise_append.mpr ⟨key.2.1, by simp, ?_⟩
      intro a ha b hb
      simp only [List.mem_singleton] at hb
      subst hb
      show a.content <+: acc
      exact (key.2.2 acc hr).2 a ha

/-- Witness for C10 at a concrete run (empty source, one final write). -/
theorem snapshot_contents_grow_witness :
    List.Pairwise contentGrows [WriteOp.mk "lounges_all.json" []] :=
  snapshot_contents_grow wfNone srcEmpty 1 [1] [WriteOp.mk "lounges_all.json" []]
    (Except.ok []) rfl
